import Mathlib

/-
Verification of the resilience layer of the Android form-filling automation
scripts (comp.py, new.py, main.py): the workflow orchestrator and its
criticality policy, the bulletproof element finder / clicker / text typer,
the tiered 15-second long-press synthesizer, the dropdown selector, the
CAPTCHA step, and session teardown.  Each Python function is shallowly
embedded as a Lean function over an explicit environment describing the
behaviour of the automation backend (which calls succeed, which raise),
and the theorems settle the specification claims against these embeddings.
-/

set_option autoImplicit false

/-- `initSeg l1 l2` holds when `l1` is an initial segment of `l2`:
executing a trace `l1` means the events happened in the order of `l2`
with nothing out of order and nothing skipped. -/
def initSeg {α : Type} (l1 l2 : List α) : Prop := ∃ t, l1 ++ t = l2

namespace Comp

/- ===== Workflow orchestrator: comp.py run_fixed_automation ===== -/

/-- Behaviour of one step function when called: it returns a boolean, or it
raises an exception (`raises`). -/
inductive StepOutcome where
  | ok (b : Bool)
  | raises
  deriving DecidableEq

/-- One entry of the `steps` list in `run_fixed_automation`: a step name and
the behaviour its lambda exhibits in this run. -/
structure WStep where
  name : String
  outcome : StepOutcome

/-- The step names the orchestrator treats as fatal on failure:
`if step_name in ["Welcome", "Email", "Password"]: return False`. -/
def criticalNames : List String := ["Welcome", "Email", "Password"]

/-- A step is critical exactly when its name is in `criticalNames`. -/
def isCritical (n : String) : Bool := criticalNames.contains n

/-- `outcomeFails o` is true when the step reported failure: it returned
`False` or raised. -/
def outcomeFails : StepOutcome → Bool
  | .ok b => !b
  | .raises => true

/-- The orchestrator's observable result: the ordered log of attempted steps
(with the boolean the orchestrator saw: `false` both for a returned `False`
and for a raised exception) and the overall success flag. -/
structure RunLog where
  log : List (String × Bool)
  success : Bool
  deriving DecidableEq

/-- The steps loop of `run_fixed_automation` (comp.py lines 720-740):
each step function is called in order; a truthy result continues; a falsy
result aborts with `False` when the step is critical and continues
otherwise; an exception is handled with exactly the same criticality
policy; when the loop finishes the function returns `True`. -/
def run_fixed_automation : List WStep → RunLog
  | [] => ⟨[], true⟩
  | s :: rest =>
    match s.outcome with
    | .ok true =>
      let r := run_fixed_automation rest
      ⟨(s.name, true) :: r.log, r.success⟩
    | .ok false =>
      if isCritical s.name then ⟨[(s.name, false)], false⟩
      else
        let r := run_fixed_automation rest
        ⟨(s.name, false) :: r.log, r.success⟩
    | .raises =>
      if isCritical s.name then ⟨[(s.name, false)], false⟩
      else
        let r := run_fixed_automation rest
        ⟨(s.name, false) :: r.log, r.success⟩

/-- The attempted-step names are always an initial segment of the declared
step names: steps run strictly in order and are never skipped or repeated. -/
theorem run_log_in_order (steps : List WStep) :
    initSeg ((run_fixed_automation steps).log.map Prod.fst) (steps.map WStep.name) := by
  induction steps with
  | nil => exact ⟨[], rfl⟩
  | cons s rest ih =>
    obtain ⟨t, ht⟩ := ih
    cases h : s.outcome with
    | ok b =>
      cases b with
      | true =>
        exact ⟨t, by simp [run_fixed_automation, h, ← ht]⟩
      | false =>
        by_cases hc : isCritical s.name
        · exact ⟨rest.map WStep.name, by simp [run_fixed_automation, h, hc]⟩
        · exact ⟨t, by simp [run_fixed_automation, h, hc, ← ht]⟩
    | raises =>
      by_cases hc : isCritical s.name
      · exact ⟨rest.map WStep.name, by simp [run_fixed_automation, h, hc]⟩
      · exact ⟨t, by simp [run_fixed_automation, h, hc, ← ht]⟩

/-- Claim C1: the orchestrator executes steps strictly in order and applies
the per-step criticality policy: a raised exception is treated identically
to a returned `False`; a failing critical step aborts the run (no later
step appears in the log, overall success is `false`); a failing optional
step is recorded and the remaining steps still run, with overall success
unaffected by the optional failure. -/
theorem C1_orchestrator_policy (n : String) (o : StepOutcome)
    (rest steps : List WStep) :
    (run_fixed_automation (⟨n, .raises⟩ :: rest)
      = run_fixed_automation (⟨n, .ok false⟩ :: rest)) ∧
    (isCritical n = true → outcomeFails o = true →
      run_fixed_automation (⟨n, o⟩ :: rest) = ⟨[(n, false)], false⟩) ∧
    (isCritical n = false → outcomeFails o = true →
      run_fixed_automation (⟨n, o⟩ :: rest)
        = ⟨(n, false) :: (run_fixed_automation rest).log,
            (run_fixed_automation rest).success⟩) ∧
    initSeg ((run_fixed_automation steps).log.map Prod.fst)
      (steps.map WStep.name) := by
  refine ⟨?_, ?_, ?_, run_log_in_order steps⟩
  · simp [run_fixed_automation]
  · intro hc hf
    cases o with
    | ok b => cases b <;> simp_all [run_fixed_automation, outcomeFails]
    | raises => simp_all [run_fixed_automation]
  · intro hc hf
    cases o with
    | ok b => cases b <;> simp_all [run_fixed_automation, outcomeFails]
    | raises => simp_all [run_fixed_automation]

/-- Witness for C1, at the spec's two scenarios: a failing critical step
(`Email`) aborts before the optional step runs with overall failure, and a
failing optional step (`CAPTCHA`) is logged while the following critical
step still runs and overall success stays `true`. -/
theorem C1_orchestrator_policy_witness :
    run_fixed_automation [⟨"Email", .ok false⟩, ⟨"CAPTCHA", .ok true⟩]
      = ⟨[("Email", false)], false⟩ ∧
    run_fixed_automation [⟨"CAPTCHA", .ok false⟩, ⟨"Email", .ok true⟩]
      = ⟨[("CAPTCHA", false), ("Email", true)], true⟩ := by
  constructor
  · exact (C1_orchestrator_policy "Email" (.ok false) [⟨"CAPTCHA", .ok true⟩] []).2.1
      (by decide) (by decide)
  · have h := (C1_orchestrator_policy "CAPTCHA" (.ok false) [⟨"Email", .ok true⟩] []).2.2.1
      (by decide) (by decide)
    rw [h]
    rfl

/- ===== Locator resolver: comp.py find_elements_bulletproof ===== -/

/-- Outcome of `elem.is_displayed()` for one candidate element of one
query pass: it returned true, returned false, raised
`StaleElementReferenceException`, or raised some other exception. -/
inductive DispCheck where
  | displayed
  | notDisplayed
  | staleExc
  | otherExc
  deriving DecidableEq

/-- The visibility filter inside `find_elements_bulletproof` (comp.py lines
78-87): displayed elements are kept, non-displayed ones dropped, a
candidate whose check raises `StaleElementReferenceException` is skipped
(`continue`), and a candidate whose check raises any other exception is
appended to the result. Candidates are identified by a numeral handle. -/
def visibleFilter : List (Nat × DispCheck) → List Nat
  | [] => []
  | (e, DispCheck.displayed) :: t => e :: visibleFilter t
  | (_, DispCheck.notDisplayed) :: t => visibleFilter t
  | (_, DispCheck.staleExc) :: t => visibleFilter t
  | (e, DispCheck.otherExc) :: t => e :: visibleFilter t

/-- `find_elements_bulletproof` (comp.py lines 69-101): each retry pass
yields a candidate list from the backend (an empty list models a wait
timeout); the first pass whose visibility filter keeps at least one
candidate is returned; exhausting the passes returns the empty list. -/
def find_elements_bulletproof : List (List (Nat × DispCheck)) → List Nat
  | [] => []
  | pass :: rest =>
    if pass.isEmpty then find_elements_bulletproof rest
    else
      let vis := visibleFilter pass
      if vis.isEmpty then find_elements_bulletproof rest else vis

/-- Counterexample to claim C4: on a query pass whose first candidate goes
stale during the `is_displayed` check, the stale candidate is discarded
from the result, not retained — `except StaleElementReferenceException:
continue` drops it. The claim says it would be retained. -/
theorem C4_stale_discarded_counterexample :
    find_elements_bulletproof [[(0, DispCheck.staleExc), (1, DispCheck.displayed)]]
        = [1] ∧
    0 ∉ find_elements_bulletproof
        [[(0, DispCheck.staleExc), (1, DispCheck.displayed)]] := by
  decide

/-- The retention rule the code actually applies, stated from the amended
claim's words: keep a candidate whose check said displayed, keep one whose
check raised a non-staleness exception (interactable-unknown), drop
non-displayed and stale candidates. -/
def keepCand : DispCheck → Bool
  | DispCheck.displayed => true
  | DispCheck.otherExc => true
  | DispCheck.notDisplayed => false
  | DispCheck.staleExc => false

/-- Claim C4 (amended): the candidate filter keeps exactly the displayed
candidates and those whose check raised a non-staleness exception; a
candidate that went stale during the check is discarded, not retained; and
the function returns the first pass whose filtered list is non-empty. -/
theorem C4_filter_amended (cs : List (Nat × DispCheck))
    (pass : List (Nat × DispCheck)) (rest : List (List (Nat × DispCheck))) :
    visibleFilter cs = (cs.filter (fun p => keepCand p.2)).map Prod.fst ∧
    (pass ≠ [] → visibleFilter pass ≠ [] →
      find_elements_bulletproof (pass :: rest) = visibleFilter pass) := by
  constructor
  · induction cs with
    | nil => rfl
    | cons p t ih =>
      obtain ⟨e, d⟩ := p
      cases d <;> simp [visibleFilter, keepCand, ih]
  · intro h1 h2
    simp [find_elements_bulletproof, List.isEmpty_iff, h1, h2]

/-- Witness for the amended C4 at a concrete pass containing all four
check outcomes: only the displayed and unknown-state candidates survive. -/
theorem C4_filter_amended_witness :
    visibleFilter [(0, DispCheck.staleExc), (1, DispCheck.displayed),
        (2, DispCheck.notDisplayed), (3, DispCheck.otherExc)]
      = ([(0, DispCheck.staleExc), (1, DispCheck.displayed),
         (2, DispCheck.notDisplayed), (3, DispCheck.otherExc)].filter
           (fun p => keepCand p.2)).map Prod.fst ∧
    find_elements_bulletproof [[(0, DispCheck.staleExc), (1, DispCheck.displayed),
        (2, DispCheck.notDisplayed), (3, DispCheck.otherExc)]]
      = visibleFilter [(0, DispCheck.staleExc), (1, DispCheck.displayed),
        (2, DispCheck.notDisplayed), (3, DispCheck.otherExc)] := by
  have h := C4_filter_amended
    [(0, DispCheck.staleExc), (1, DispCheck.displayed),
     (2, DispCheck.notDisplayed), (3, DispCheck.otherExc)]
    [(0, DispCheck.staleExc), (1, DispCheck.displayed),
     (2, DispCheck.notDisplayed), (3, DispCheck.otherExc)] []
  exact ⟨h.1, h.2 (by decide) (by decide)⟩

/- ===== Action executor: comp.py click_element_bulletproof ===== -/

/-- Outcome of `element.click()` on one attempt. -/
inductive ClickOutcome where
  | ok
  | staleExc
  | otherExc
  deriving DecidableEq

/-- Behaviour of one attempt of `click_element_bulletproof`: what the fresh
call to `find_element_bulletproof` resolved on this attempt (`none` when
nothing was found), and how clicking that element behaved. -/
structure ClickAttempt where
  resolved : Option Nat
  outcome : ClickOutcome

/-- `true` when the attempt resolves an element and clicking it succeeds. -/
def attemptOk (a : ClickAttempt) : Bool :=
  a.resolved.isSome && (a.outcome == ClickOutcome.ok)

/-- The attempt loop of `click_element_bulletproof` (comp.py lines 108-130),
indexed by the attempt number: each iteration re-resolves a fresh element;
an unresolved element returns `False` immediately; a successful click
returns `True`; a click that raises (stale or otherwise) is caught and the
next attempt runs; an exhausted loop returns `False`.  The trace records
each click as (attempt index, handle clicked at that attempt). -/
def clickLoop : Nat → List ClickAttempt → Bool × List (Nat × Nat)
  | _, [] => (false, [])
  | i, a :: rest =>
    match a.resolved with
    | none => (false, [])
    | some h =>
      match a.outcome with
      | ClickOutcome.ok => (true, [(i, h)])
      | ClickOutcome.staleExc =>
        let r := clickLoop (i + 1) rest
        (r.1, (i, h) :: r.2)
      | ClickOutcome.otherExc =>
        let r := clickLoop (i + 1) rest
        (r.1, (i, h) :: r.2)

/-- `click_element_bulletproof` runs at most three attempts. -/
def click_element_bulletproof (a1 a2 a3 : ClickAttempt) : Bool × List (Nat × Nat) :=
  clickLoop 0 [a1, a2, a3]

/-- Claim C6: every click in the trace is on the handle freshly resolved at
that same attempt (a handle from an earlier attempt is never reused), and
when all three attempts fail — by not resolving or by the click raising —
the function returns `False` as an ordinary value.  The embedding is a
total function into `Bool` over every environment, including those where
each primitive raises: no exception propagates to the caller. -/
theorem C6_click_fresh_and_failure (a1 a2 a3 : ClickAttempt) :
    (∀ p ∈ (click_element_bulletproof a1 a2 a3).2,
      (p.1 = 0 ∧ a1.resolved = some p.2) ∨
      (p.1 = 1 ∧ a2.resolved = some p.2) ∨
      (p.1 = 2 ∧ a3.resolved = some p.2)) ∧
    (attemptOk a1 = false → attemptOk a2 = false → attemptOk a3 = false →
      (click_element_bulletproof a1 a2 a3).1 = false) := by
  obtain ⟨r1, o1⟩ := a1
  obtain ⟨r2, o2⟩ := a2
  obtain ⟨r3, o3⟩ := a3
  cases r1 <;> cases r2 <;> cases r3 <;>
    cases o1 <;> cases o2 <;> cases o3 <;>
    simp_all [click_element_bulletproof, clickLoop, attemptOk]

/-- Witness for C6: three attempts that resolve handles 7, 8, 9 whose
clicks all raise — the trace pairs each click with its own attempt's
handle and the result is `False`. -/
theorem C6_click_fresh_and_failure_witness :
    (∀ p ∈ (click_element_bulletproof ⟨some 7, ClickOutcome.staleExc⟩
        ⟨some 8, ClickOutcome.otherExc⟩ ⟨some 9, ClickOutcome.staleExc⟩).2,
      (p.1 = 0 ∧ (some 7 : Option Nat) = some p.2) ∨
      (p.1 = 1 ∧ (some 8 : Option Nat) = some p.2) ∨
      (p.1 = 2 ∧ (some 9 : Option Nat) = some p.2)) ∧
    (click_element_bulletproof ⟨some 7, ClickOutcome.staleExc⟩
        ⟨some 8, ClickOutcome.otherExc⟩ ⟨some 9, ClickOutcome.staleExc⟩).1 = false := by
  have h := C6_click_fresh_and_failure ⟨some 7, ClickOutcome.staleExc⟩
    ⟨some 8, ClickOutcome.otherExc⟩ ⟨some 9, ClickOutcome.staleExc⟩
  exact ⟨h.1, h.2 (by decide) (by decide) (by decide)⟩

/- ===== Text normalizer: comp.py type_text_bulletproof ===== -/

/-- Backend events one call to `type_text_bulletproof` can issue against
the element or device: focus click, native `element.clear()`, one DEL
keycode press, a successful or failing `send_keys`, and the ADB
`input text` fallback (successful or failing). -/
inductive TEv where
  | tClick
  | tNativeClear
  | tBackspace
  | tSendKeys
  | tSendKeysFail
  | tAdbText
  | tAdbFail
  deriving DecidableEq

/-- Behaviour of the backend during one attempt of the typing loop:
whether the fresh element lookup finds an element, how the focus click
behaves, and whether `element.clear()`, `element.send_keys` and the ADB
fallback raise. -/
structure TypeAttempt where
  found : Bool
  click : ClickOutcome
  clearRaises : Bool
  sendRaises : Bool
  adbRaises : Bool

/-- Substring test on character lists, modelling Python's `in` on strings:
true when `needle` occurs contiguously inside `hay`. -/
def subList : List Char → List Char → Bool
  | [], needle => needle.isEmpty
  | c :: t, needle => needle.isPrefixOf (c :: t) || subList t needle

/-- The characters of `"year"`. -/
def yearLower : List Char := String.toList "year"

/-- The characters of `"Year"`. -/
def yearCap : List Char := String.toList "Year"

/-- The year-field classification of comp.py line 146:
`"year" in description.lower() or "Year" in description`. -/
def yearCond (d : List Char) : Bool :=
  subList (d.map Char.toLower) yearLower || subList d yearCap

/-- `n` presses of the DEL keycode with the cursor at the end of the
field: each press removes the last character. -/
def backspaceN : Nat → List Char → List Char
  | 0, c => c
  | n + 1, c => backspaceN n c.dropLast

/-- The clearing phase of one attempt (comp.py lines 145-164): a year-like
description always uses 15 backspaces and never calls `element.clear()`;
any other description calls `element.clear()`, falling back to
`current length + 5` backspaces when the native clear raises.  Returns the
events issued and the field content after clearing. -/
def clearPhase (a : TypeAttempt) (year : Bool) (c : List Char) :
    List TEv × List Char :=
  if year then (List.replicate 15 TEv.tBackspace, backspaceN 15 c)
  else if a.clearRaises then
    (TEv.tNativeClear :: List.replicate (c.length + 5) TEv.tBackspace,
     backspaceN (c.length + 5) c)
  else ([TEv.tNativeClear], [])

/-- One attempt of `type_text_bulletproof` (comp.py lines 134-188): find a
fresh element (`none` result returns `False` immediately), focus-click it
(a raised exception of either kind falls to the next attempt), clear,
then inject: `send_keys`, with the ADB `input text` channel as fallback;
a failing ADB call is caught at attempt level and the next attempt runs
with the field already cleared.  `some b` means the function returns `b`;
`none` means the loop continues. -/
def typeAttempt (a : TypeAttempt) (year : Bool) (text c : List Char) :
    Option Bool × List TEv × List Char :=
  if a.found = false then (some false, [], c)
  else
    match a.click with
    | ClickOutcome.staleExc => (none, [TEv.tClick], c)
    | ClickOutcome.otherExc => (none, [TEv.tClick], c)
    | ClickOutcome.ok =>
      if a.sendRaises = false then
        (some true, TEv.tClick :: (clearPhase a year c).1 ++ [TEv.tSendKeys],
         (clearPhase a year c).2 ++ text)
      else if a.adbRaises = false then
        (some true,
         TEv.tClick :: (clearPhase a year c).1 ++ [TEv.tSendKeysFail, TEv.tAdbText],
         (clearPhase a year c).2 ++ text)
      else
        (none,
         TEv.tClick :: (clearPhase a year c).1 ++ [TEv.tSendKeysFail, TEv.tAdbFail],
         (clearPhase a year c).2)

/-- The three-attempt loop of `type_text_bulletproof`, accumulating the
event trace and threading the field content. -/
def typeLoop : List TypeAttempt → Bool → List Char → List Char →
    Bool × List TEv × List Char
  | [], _, _, c => (false, [], c)
  | a :: rest, year, text, c =>
    match typeAttempt a year text c with
    | (some b, evs, c2) => (b, evs, c2)
    | (none, evs, c2) =>
      ((typeLoop rest year text c2).1,
       evs ++ (typeLoop rest year text c2).2.1,
       (typeLoop rest year text c2).2.2)

/-- `type_text_bulletproof` with its three attempts, a field description
`d`, the text to inject and the field's current content. -/
def type_text_bulletproof (a1 a2 a3 : TypeAttempt) (d text c : List Char) :
    Bool × List TEv × List Char :=
  typeLoop [a1, a2, a3] (yearCond d) text c

/-- Event kinds that clear field content. -/
def clearingEv : TEv → Bool
  | TEv.tNativeClear => true
  | TEv.tBackspace => true
  | _ => false

/-- In year mode the typing loop never issues a native clear. -/
theorem typeLoop_year_no_clear (as : List TypeAttempt) (text : List Char) :
    ∀ c : List Char, TEv.tNativeClear ∉ (typeLoop as true text c).2.1 := by
  induction as with
  | nil => intro c; simp [typeLoop]
  | cons a rest ih =>
    intro c
    obtain ⟨f, cl, cr, sr, ar⟩ := a
    cases f <;> cases cl <;> cases sr <;> cases ar <;>
      simp_all [typeLoop, typeAttempt, clearPhase, List.mem_replicate]

/-- Claim C3: whenever the field description contains `"year"` in any
case, the native clear primitive is never invoked on the element, and
every clearing event the call issues is a backspace keystroke. -/
theorem C3_year_never_native_clear (a1 a2 a3 : TypeAttempt)
    (d text c : List Char)
    (h : subList (d.map Char.toLower) yearLower = true) :
    TEv.tNativeClear ∉ (type_text_bulletproof a1 a2 a3 d text c).2.1 ∧
    ∀ e ∈ (type_text_bulletproof a1 a2 a3 d text c).2.1,
      clearingEv e = true → e = TEv.tBackspace := by
  have hy : yearCond d = true := by simp [yearCond, h]
  have hmem : TEv.tNativeClear ∉ (type_text_bulletproof a1 a2 a3 d text c).2.1 := by
    rw [type_text_bulletproof, hy]
    exact typeLoop_year_no_clear [a1, a2, a3] text c
  refine ⟨hmem, ?_⟩
  intro e he hce
  cases e <;> simp_all [clearingEv]

/-- Witness for C3: a `"Year"`-described field whose native clear would
raise is cleared purely by backspace; no native clear event appears. -/
theorem C3_year_never_native_clear_witness :
    TEv.tNativeClear ∉ (type_text_bulletproof
        ⟨true, ClickOutcome.ok, true, false, false⟩
        ⟨true, ClickOutcome.ok, true, false, false⟩
        ⟨true, ClickOutcome.ok, true, false, false⟩
        (String.toList "Year field") (String.toList "1995")
        (String.toList "2000")).2.1 ∧
    ∀ e ∈ (type_text_bulletproof
        ⟨true, ClickOutcome.ok, true, false, false⟩
        ⟨true, ClickOutcome.ok, true, false, false⟩
        ⟨true, ClickOutcome.ok, true, false, false⟩
        (String.toList "Year field") (String.toList "1995")
        (String.toList "2000")).2.1,
      clearingEv e = true → e = TEv.tBackspace :=
  C3_year_never_native_clear
    ⟨true, ClickOutcome.ok, true, false, false⟩
    ⟨true, ClickOutcome.ok, true, false, false⟩
    ⟨true, ClickOutcome.ok, true, false, false⟩
    (String.toList "Year field") (String.toList "1995")
    (String.toList "2000") (by decide)

/-- `n` backspaces from the end keep only the first `length - n`
characters. -/
theorem backspaceN_eq_take (n : Nat) (c : List Char) :
    backspaceN n c = c.take (c.length - n) := by
  induction n generalizing c with
  | zero => simp [backspaceN]
  | succ n ih =>
    rw [backspaceN, ih, List.length_dropLast, List.dropLast_eq_take,
      List.take_take]
    congr 1
    omega

/-- Enough backspaces empty the field. -/
theorem backspaceN_all (n : Nat) (c : List Char) (h : c.length ≤ n) :
    backspaceN n c = [] := by
  rw [backspaceN_eq_take, Nat.sub_eq_zero_of_le h, List.take_zero]

/-- On an attempt whose element is found, whose focus click succeeds and
whose injection lands through `send_keys` or the ADB fallback, the final
field content is the cleared content with the text appended. -/
theorem typeLoop_content (e : TypeAttempt) (year : Bool) (text c : List Char)
    (hf : e.found = true) (hc : e.click = ClickOutcome.ok)
    (hd : e.sendRaises = false ∨ e.adbRaises = false) :
    (typeLoop [e, e, e] year text c).2.2 = (clearPhase e year c).2 ++ text := by
  obtain ⟨f, cl, cr, sr, ar⟩ := e
  simp only at hf hc
  subst hf hc
  rcases hd with hd | hd
  · simp only at hd
    subst hd
    cases ar <;> simp [typeLoop, typeAttempt]
  · simp only at hd
    subst hd
    cases sr <;> simp [typeLoop, typeAttempt]

/-- Counterexample to claim C9 as stated: with every backend primitive
succeeding, entering sixteen characters twice into a field described as
`"Year"` leaves a residue — the fixed budget of 15 backspaces cannot clear
the sixteen characters left by the first invocation, so the final content
is not the text. -/
theorem C9_idempotence_counterexample :
    (type_text_bulletproof
        ⟨true, ClickOutcome.ok, false, false, false⟩
        ⟨true, ClickOutcome.ok, false, false, false⟩
        ⟨true, ClickOutcome.ok, false, false, false⟩
        (String.toList "Year") (String.toList "0123456789abcdef")
        (type_text_bulletproof
          ⟨true, ClickOutcome.ok, false, false, false⟩
          ⟨true, ClickOutcome.ok, false, false, false⟩
          ⟨true, ClickOutcome.ok, false, false, false⟩
          (String.toList "Year") (String.toList "0123456789abcdef")
          []).2.2).2.2
      ≠ String.toList "0123456789abcdef" := by
  decide

/-- Claim C9 (amended): with the element resolved, the focus click
succeeding and the injection landing, invoking the typer twice with the
same text leaves the field content equal to that text for every field not
classified year-like; for a year-like field the same holds provided the
prior content and text fit the fixed 15-backspace clearing budget
(`(|c0| - 15) + |text| ≤ 15`). A year-like field given longer text keeps a
residue, as the counterexample shows. -/
theorem C9_idempotent_amended (e : TypeAttempt) (d text c0 : List Char)
    (hf : e.found = true) (hc : e.click = ClickOutcome.ok)
    (hd : e.sendRaises = false ∨ e.adbRaises = false) :
    (yearCond d = false →
      (type_text_bulletproof e e e d text
        (type_text_bulletproof e e e d text c0).2.2).2.2 = text) ∧
    (yearCond d = true → c0.length - 15 + text.length ≤ 15 →
      (type_text_bulletproof e e e d text
        (type_text_bulletproof e e e d text c0).2.2).2.2 = text) := by
  constructor
  · intro hy
    rw [type_text_bulletproof, type_text_bulletproof, hy,
      typeLoop_content e false text c0 hf hc hd,
      typeLoop_content e false text _ hf hc hd]
    by_cases hcr : e.clearRaises = true <;>
      simp [clearPhase, hcr, backspaceN_all]
  · intro hy hlen
    rw [type_text_bulletproof, type_text_bulletproof, hy,
      typeLoop_content e true text c0 hf hc hd,
      typeLoop_content e true text _ hf hc hd]
    simp only [clearPhase, if_true]
    have h2 : (backspaceN 15 c0 ++ text).length ≤ 15 := by
      rw [backspaceN_eq_take]
      simp only [List.length_append, List.length_take]
      omega
    rw [backspaceN_all _ _ h2]
    simp

/-- Witness for the amended C9: a non-year field keeps exactly `"hello"`
after two injections, and a `"Year"` field keeps exactly `"1995"` after
two injections from initial content `"2000"`. -/
theorem C9_idempotent_amended_witness :
    (type_text_bulletproof ⟨true, ClickOutcome.ok, false, false, false⟩
        ⟨true, ClickOutcome.ok, false, false, false⟩
        ⟨true, ClickOutcome.ok, false, false, false⟩
        (String.toList "Email") (String.toList "hello")
        (type_text_bulletproof ⟨true, ClickOutcome.ok, false, false, false⟩
          ⟨true, ClickOutcome.ok, false, false, false⟩
          ⟨true, ClickOutcome.ok, false, false, false⟩
          (String.toList "Email") (String.toList "hello")
          (String.toList "old")).2.2).2.2 = String.toList "hello" ∧
    (type_text_bulletproof ⟨true, ClickOutcome.ok, false, false, false⟩
        ⟨true, ClickOutcome.ok, false, false, false⟩
        ⟨true, ClickOutcome.ok, false, false, false⟩
        (String.toList "Year") (String.toList "1995")
        (type_text_bulletproof ⟨true, ClickOutcome.ok, false, false, false⟩
          ⟨true, ClickOutcome.ok, false, false, false⟩
          ⟨true, ClickOutcome.ok, false, false, false⟩
          (String.toList "Year") (String.toList "1995")
          (String.toList "2000")).2.2).2.2 = String.toList "1995" := by
  constructor
  · exact (C9_idempotent_amended ⟨true, ClickOutcome.ok, false, false, false⟩
      (String.toList "Email") (String.toList "hello") (String.toList "old")
      rfl rfl (Or.inl rfl)).1 (by decide)
  · exact (C9_idempotent_amended ⟨true, ClickOutcome.ok, false, false, false⟩
      (String.toList "Year") (String.toList "1995") (String.toList "2000")
      rfl rfl (Or.inl rfl)).2 (by decide) (by decide)

end Comp

namespace NewV3

/- ===== Gesture synthesizer: new.py long_press_15s_strong ===== -/

/-- Which of the four fallback tiers raise an exception when attempted:
the native `longClickGesture`, the W3C hold of fifteen one-second pauses,
the ADB swipe-in-place, and the micro-drag. -/
structure GestureEnv where
  t1Raises : Bool
  t2Raises : Bool
  t3Raises : Bool
  t4Raises : Bool

/-- Control flow of `long_press_15s_strong` (new.py lines 172-235): each
tier runs inside its own `try`; a tier that completes returns `True`
immediately with no verification; a tier that raises falls to the next;
when all four raise the function returns `False`.  The result pairs the
returned boolean with the list of tier indices attempted, in order. -/
def long_press_15s_strong (env : GestureEnv) : Bool × List Nat :=
  if env.t1Raises = false then (true, [0])
  else if env.t2Raises = false then (true, [0, 1])
  else if env.t3Raises = false then (true, [0, 1, 2])
  else (!env.t4Raises, [0, 1, 2, 3])

/-- The tiers attempted by one call, in order. -/
def attemptedTiers (env : GestureEnv) : List Nat := (long_press_15s_strong env).2

/-- The boolean the call returns. -/
def longPressResult (env : GestureEnv) : Bool := (long_press_15s_strong env).1

/-- The pointer and raw-channel commands a tier issues. Durations are in
milliseconds; selenium's `create_pause(1)` is a one-second, 1000 ms pause,
and `create_pointer_move(duration=500, ...)` is a 500 ms move. -/
inductive Cmd where
  | longClick (durationMs : Nat)
  | pointerDown
  | pause (ms : Nat)
  | pointerMove (durationMs : Nat) (x y : Int)
  | pointerUp
  | adbSwipe (x1 y1 x2 y2 : Int) (durationMs : Nat)

/-- The command sequence of each tier at element center `(cx, cy)`:
tier 0 is `mobile: longClickGesture` with `duration 15000`; tier 1 moves,
presses, pauses fifteen times for one second each and releases; tier 2 is
`adb shell input touchscreen swipe cx cy cx cy 15000`; tier 3 moves,
presses, then walks 2 px right and back fifteen times at 500 ms per move
while held, and releases. -/
def tierCmds (cx cy : Int) : Nat → List Cmd
  | 0 => [Cmd.longClick 15000]
  | 1 => Cmd.pointerMove 0 cx cy :: Cmd.pointerDown ::
      (List.replicate 15 (Cmd.pause 1000) ++ [Cmd.pointerUp])
  | 2 => [Cmd.adbSwipe cx cy cx cy 15000]
  | 3 => Cmd.pointerMove 0 cx cy :: Cmd.pointerDown ::
      ((List.replicate 15
          [Cmd.pointerMove 500 (cx + 2) cy, Cmd.pointerMove 500 cx cy]).flatten
        ++ [Cmd.pointerUp])
  | _ => []

/-- Hold contribution of one command while the pointer is down. -/
def cmdHold : Cmd → Nat
  | Cmd.pause d => d
  | Cmd.pointerMove d _ _ => d
  | _ => 0

/-- Direct hold duration commanded by one-shot primitives. -/
def cmdDirect : Cmd → Nat
  | Cmd.longClick d => d
  | Cmd.adbSwipe _ _ _ _ d => d
  | _ => 0

/-- Milliseconds the pointer stays down from here until the release. -/
def heldUntilUp : List Cmd → Nat
  | [] => 0
  | Cmd.pointerUp :: _ => 0
  | c :: rest => cmdHold c + heldUntilUp rest

/-- Milliseconds between the pointer-down and the following release. -/
def holdAfterDown : List Cmd → Nat
  | [] => 0
  | Cmd.pointerDown :: rest => heldUntilUp rest
  | _ :: rest => holdAfterDown rest

/-- Total commanded hold duration of a command sequence: one-shot press
durations plus the time the synthesized pointer stays down. -/
def commandedHold (cs : List Cmd) : Nat :=
  (cs.map cmdDirect).sum + holdAfterDown cs

/-- A run of `n` pauses of `d` ms before the release holds for `n * d`. -/
theorem heldUntilUp_pauses (n d : Nat) :
    heldUntilUp (List.replicate n (Cmd.pause d) ++ [Cmd.pointerUp]) = n * d := by
  induction n with
  | zero => simp [heldUntilUp]
  | succ n ih =>
    simp only [List.replicate_succ, List.cons_append, List.append_eq,
      heldUntilUp, cmdHold, ih]
    ring

/-- `n` back-and-forth moves of `a` ms and `b` ms each, before the
release, hold for `n * (a + b)`. -/
theorem heldUntilUp_moves (n a b : Nat) (x y x2 y2 : Int) :
    heldUntilUp ((List.replicate n
        [Cmd.pointerMove a x y, Cmd.pointerMove b x2 y2]).flatten
      ++ [Cmd.pointerUp]) = n * (a + b) := by
  induction n with
  | zero => simp [heldUntilUp]
  | succ n ih =>
    simp only [List.replicate_succ, List.flatten, List.cons_append, List.nil_append,
      List.append_eq, List.append_assoc, heldUntilUp, cmdHold, ih]
    ring

/-- The pause tier issues no one-shot press commands. -/
theorem mapDirect_pauses (n d : Nat) :
    ((List.replicate n (Cmd.pause d) ++ [Cmd.pointerUp]).map cmdDirect).sum = 0 := by
  induction n with
  | zero => simp [cmdDirect]
  | succ n ih =>
    simp only [List.replicate_succ, List.cons_append, List.append_eq,
      List.map_cons, List.sum_cons, ih]
    simp [cmdDirect]

/-- The micro-drag tier issues no one-shot press commands. -/
theorem mapDirect_moves (n a b : Nat) (x y x2 y2 : Int) :
    (((List.replicate n [Cmd.pointerMove a x y, Cmd.pointerMove b x2 y2]).flatten
      ++ [Cmd.pointerUp]).map cmdDirect).sum = 0 := by
  induction n with
  | zero => simp [cmdDirect]
  | succ n ih =>
    simp only [List.replicate_succ, List.flatten, List.cons_append, List.nil_append,
      List.append_eq, List.append_assoc, List.map_cons, List.sum_cons, ih]
    simp [cmdDirect]

/-- Each tier's total commanded hold: 15000 ms for the native long click,
fifteen one-second pauses, 15000 ms passed to the ADB swipe, and fifteen
500 ms + 500 ms micro-drag moves. -/
theorem commandedHold_tiers (cx cy : Int) :
    commandedHold (tierCmds cx cy 0) = 15000 ∧
    commandedHold (tierCmds cx cy 1) = 15 * 1000 ∧
    commandedHold (tierCmds cx cy 2) = 15000 ∧
    commandedHold (tierCmds cx cy 3) = 15 * (500 + 500) := by
  refine ⟨?_, ?_, ?_, ?_⟩
  · simp [tierCmds, commandedHold, cmdDirect, holdAfterDown]
  · simp only [tierCmds, commandedHold, List.map_cons, List.sum_cons,
      holdAfterDown, mapDirect_pauses, heldUntilUp_pauses, cmdDirect]
  · simp [tierCmds, commandedHold, cmdDirect, holdAfterDown]
  · simp only [tierCmds, commandedHold, List.map_cons, List.sum_cons,
      holdAfterDown, mapDirect_moves, heldUntilUp_moves, cmdDirect]

/-- Claim C2: every fallback tier the synthesizer reaches commands a hold
of at least 15000 ms, with tier 1 accumulating fifteen one-second pauses,
tier 2 passing 15000 ms to the swipe, and tier 3 summing fifteen
500 ms + 500 ms moves while the pointer is down. -/
theorem C2_hold_at_least_15s (cx cy : Int) (env : GestureEnv) (t : Nat)
    (h : t ∈ attemptedTiers env) :
    15000 ≤ commandedHold (tierCmds cx cy t) ∧
    commandedHold (tierCmds cx cy 1) = 15 * 1000 ∧
    commandedHold (tierCmds cx cy 2) = 15000 ∧
    commandedHold (tierCmds cx cy 3) = 15 * (500 + 500) := by
  have hc := commandedHold_tiers cx cy
  have ht : t = 0 ∨ t = 1 ∨ t = 2 ∨ t = 3 := by
    obtain ⟨a, b, c, d⟩ := env
    cases a <;> cases b <;> cases c <;> cases d <;>
      simp_all [attemptedTiers, long_press_15s_strong] <;> omega
  refine ⟨?_, hc.2.1, hc.2.2.1, hc.2.2.2⟩
  rcases ht with rfl | rfl | rfl | rfl
  · rw [hc.1]
  · rw [hc.2.1]
  · rw [hc.2.2.1]
  · rw [hc.2.2.2]

/-- Witness for C2: when the first three tiers raise, tier 3 (micro-drag)
is reached and its commanded hold is at least 15000 ms. -/
theorem C2_hold_at_least_15s_witness :
    (3 : Nat) ∈ attemptedTiers ⟨true, true, true, true⟩ ∧
    15000 ≤ commandedHold (tierCmds 100 200 3) :=
  ⟨by decide, (C2_hold_at_least_15s 100 200 ⟨true, true, true, true⟩ 3 (by decide)).1⟩

/-- Claim C5: the four tiers are attempted in the fixed order native
long-press, one-second-tick hold, ADB swipe-in-place, micro-drag; a later
tier is attempted only when every earlier tier raised; the first tier that
completes without raising ends the call immediately with success (no
verification happens); only when all four raise does the call fail. -/
theorem C5_tier_fallback_order (env : GestureEnv) :
    (env.t1Raises = false →
      attemptedTiers env = [0] ∧ longPressResult env = true) ∧
    (env.t1Raises = true → env.t2Raises = false →
      attemptedTiers env = [0, 1] ∧ longPressResult env = true) ∧
    (env.t1Raises = true → env.t2Raises = true → env.t3Raises = false →
      attemptedTiers env = [0, 1, 2] ∧ longPressResult env = true) ∧
    (env.t1Raises = true → env.t2Raises = true → env.t3Raises = true →
      attemptedTiers env = [0, 1, 2, 3] ∧
      longPressResult env = !env.t4Raises) ∧
    ((1 : Nat) ∈ attemptedTiers env → env.t1Raises = true) ∧
    ((2 : Nat) ∈ attemptedTiers env →
      env.t1Raises = true ∧ env.t2Raises = true) ∧
    ((3 : Nat) ∈ attemptedTiers env →
      env.t1Raises = true ∧ env.t2Raises = true ∧ env.t3Raises = true) := by
  obtain ⟨a, b, c, d⟩ := env
  cases a <;> cases b <;> cases c <;> cases d <;>
    simp [attemptedTiers, longPressResult, long_press_15s_strong]

/-- Witness for C5: with tiers 1 and 2 raising and tier 3 completing, the
attempted tiers are exactly 0, 1, 2 in order and the call succeeds. -/
theorem C5_tier_fallback_order_witness :
    attemptedTiers ⟨true, true, false, true⟩ = [0, 1, 2] ∧
    longPressResult ⟨true, true, false, true⟩ = true :=
  (C5_tier_fallback_order ⟨true, true, false, true⟩).2.2.1 rfl rfl rfl

end NewV3

/- ===== Session lifecycle: comp.py run_fixed_automation teardown and
new.py run teardown ===== -/

namespace Session

/-- Environment of one workflow run as far as the session lifecycle is
concerned: whether `webdriver.Remote` opens a session, whether the
post-open configuration calls (`update_settings`, `get_window_size`)
succeed, and how the step-loop body behaves. -/
structure SessionEnv where
  openOk : Bool
  configOk : Bool
  bodyOk : Bool
  bodyRaises : Bool

/-- `setup_driver` of comp.py (lines 41-67): the session handle is stored
as soon as `webdriver.Remote` returns; a failing post-open configuration
call is caught and `False` returned with the handle still stored.
Result is (returned boolean, driver attribute set). -/
def comp_setup_driver (env : SessionEnv) : Bool × Bool :=
  if env.openOk then (env.configOk, true) else (false, false)

/-- `run_fixed_automation` of comp.py (lines 699-751) as seen by the
session: `setup_driver` is called inside the `try`, so the `finally`
block always runs and calls `driver.quit()` exactly once whenever the
driver attribute is set, on the normal path, the step-failure path and
the exception path alike.  Result is (outcome, number of quit calls);
`none` would model an escaping exception, which cannot happen here. -/
def run_fixed_automation_session (env : SessionEnv) : Option Bool × Nat :=
  if (comp_setup_driver env).2 = false then (some false, 0)
  else if (comp_setup_driver env).1 = false then (some false, 1)
  else if env.bodyRaises then (some false, 1)
  else (some env.bodyOk, 1)

/-- `setup` of new.py (lines 34-58): same shape as comp.py's
`setup_driver` — the handle is stored before the configuration calls,
whose failure makes `setup` return `False` with the handle stored. -/
def new_setup (env : SessionEnv) : Bool × Bool :=
  if env.openOk then (env.configOk, true) else (false, false)

/-- `run` of new.py (lines 346-368) as seen by the session: the guard
`if not self.setup(): return False` sits before the `try`/`finally`, so a
failing setup returns with no quit call; once the flow body is entered the
`finally` calls `driver.quit()` exactly once, and an exception in the body
escapes after the teardown (`none`). -/
def new_run_session (env : SessionEnv) : Option Bool × Nat :=
  if (new_setup env).1 = false then (some false, 0)
  else if env.bodyRaises then (none, 1)
  else (some env.bodyOk, 1)

/-- Counterexample to claim C8: when `webdriver.Remote` succeeds but a
post-open configuration call fails, new.py's `setup` returns `False` with
the session handle stored, and `run` returns before its `try`/`finally` —
a session was opened yet `driver.quit()` is never called. -/
theorem C8_teardown_counterexample :
    (new_setup ⟨true, false, true, false⟩).2 = true ∧
    (new_run_session ⟨true, false, true, false⟩).2 = 0 := by
  decide

/-- Claim C8 (amended): in comp.py's runner the teardown is exact — one
`driver.quit()` whenever a session was opened, none otherwise, on every
path including step failure and escaping exceptions.  In new.py's runner
the teardown is exact whenever `setup()` returns `True`; when the session
opens but a post-open configuration call fails, the run returns without
teardown.  Neither runner ever calls quit twice. -/
theorem C8_teardown_amended (env : SessionEnv) :
    (env.openOk = true → (run_fixed_automation_session env).2 = 1) ∧
    (env.openOk = false → (run_fixed_automation_session env).2 = 0) ∧
    ((new_setup env).1 = true → (new_run_session env).2 = 1) ∧
    (new_run_session env).2 ≤ 1 ∧ (run_fixed_automation_session env).2 ≤ 1 := by
  obtain ⟨a, b, c, d⟩ := env
  cases a <;> cases b <;> cases c <;> cases d <;> decide

/-- Witness for the amended C8: a run whose session opens, whose
configuration succeeds and whose body raises still tears down exactly once
in both runners. -/
theorem C8_teardown_amended_witness :
    (run_fixed_automation_session ⟨true, true, true, true⟩).2 = 1 ∧
    (new_run_session ⟨true, true, true, true⟩).2 = 1 :=
  ⟨(C8_teardown_amended ⟨true, true, true, true⟩).1 rfl,
   (C8_teardown_amended ⟨true, true, true, true⟩).2.2.1 rfl⟩

end Session

/- ===== CAPTCHA step: comp.py step6_captcha and new.py step6_captcha ===== -/

/-- What a step-function invocation does: return `True`, return `False`,
or let an exception escape to the orchestrator. -/
inductive StepRes where
  | retTrue
  | retFalse
  | raisesOut
  deriving DecidableEq

namespace Comp

/-- Backend behaviour during comp.py's `step6_captcha`: whether a CAPTCHA
button is found, whether reading its geometry raises, whether the native
`longClickGesture` succeeds, whether the inner ADB swipe call raises, and
whether the final coordinate ADB swipe raises. -/
structure CapEnv where
  buttonFound : Bool
  geomRaises : Bool
  nativeOk : Bool
  adbRaises : Bool
  finalAdbRaises : Bool

/-- The unconditional coordinate-based hold at the end of
`step6_captcha` (comp.py lines 497-506): `subprocess.run` with
`check=False` followed by `return True`; the call itself is outside any
`try`, so only its own raising can keep the step from returning `True`. -/
def coordinateFallback (e : CapEnv) : StepRes :=
  if e.finalAdbRaises then StepRes.raisesOut else StepRes.retTrue

/-- comp.py `step6_captcha` (lines 449-506): with a button found, a
geometry failure or a raised inner ADB call drops to the coordinate
fallback; the native long press or the inner ADB call returning ends the
step with `True`; with no button found the coordinate fallback runs
directly.  No path returns `False`. -/
def step6_captcha (e : CapEnv) : StepRes :=
  if e.buttonFound then
    if e.geomRaises then coordinateFallback e
    else if e.nativeOk then StepRes.retTrue
    else if e.adbRaises then coordinateFallback e
    else StepRes.retTrue
  else coordinateFallback e

end Comp

namespace NewV3

/-- new.py `step6_captcha` (lines 333-343): when no CAPTCHA element is
found, an ADB swipe with `check=False` runs and the step returns `True`;
when the element is found the step returns whatever
`long_press_15s_strong` returns — which is `False` when all four tiers
raise. -/
def step6_captcha (capFound finalAdbRaises : Bool) (lp : GestureEnv) : StepRes :=
  if capFound = false then
    (if finalAdbRaises then StepRes.raisesOut else StepRes.retTrue)
  else
    (if longPressResult lp then StepRes.retTrue else StepRes.retFalse)

end NewV3

/-- Counterexample to claim C10: in new.py's `step6_captcha`, when the
CAPTCHA element is found and all four long-press tiers raise, the step
returns `False` to the orchestrator on a path that raises out of nothing —
so the step can report failure, contrary to the claim. -/
theorem C10_captcha_counterexample :
    NewV3.step6_captcha true false ⟨true, true, true, true⟩ = StepRes.retFalse := by
  decide

/-- Claim C10 (amended): comp.py's `step6_captcha` can never return
`False` — every execution path that does not raise out of the raw
input-injection call returns `True`.  new.py's `step6_captcha` returns
`True` whenever no CAPTCHA element is found and the raw call does not
raise, but when the element is found it returns the long-press result,
which is `False` exactly when all four tiers raise. -/
theorem C10_captcha_amended (e : Comp.CapEnv) (capFound finalAdb : Bool)
    (lp : NewV3.GestureEnv) :
    Comp.step6_captcha e ≠ StepRes.retFalse ∧
    (capFound = false → finalAdb = false →
      NewV3.step6_captcha capFound finalAdb lp = StepRes.retTrue) ∧
    (capFound = true →
      NewV3.step6_captcha capFound finalAdb lp =
        (if NewV3.longPressResult lp then StepRes.retTrue else StepRes.retFalse)) := by
  refine ⟨?_, ?_, ?_⟩
  · obtain ⟨a, b, c, d, f⟩ := e
    cases a <;> cases b <;> cases c <;> cases d <;> cases f <;> decide
  · intro h1 h2
    subst h1 h2
    simp [NewV3.step6_captcha]
  · intro h1
    subst h1
    simp [NewV3.step6_captcha]

/-- Witness for the amended C10: a found button whose native long click
fails and whose inner ADB call raises still yields `True` through the
coordinate fallback in comp.py, and new.py's no-element path yields
`True`; the found-element path reduces to the long-press result. -/
theorem C10_captcha_amended_witness :
    Comp.step6_captcha ⟨true, false, false, true, false⟩ ≠ StepRes.retFalse ∧
    NewV3.step6_captcha false false ⟨true, true, true, true⟩ = StepRes.retTrue ∧
    NewV3.step6_captcha true false ⟨false, true, true, true⟩ =
      (if NewV3.longPressResult ⟨false, true, true, true⟩ then StepRes.retTrue
       else StepRes.retFalse) :=
  ⟨(C10_captcha_amended ⟨true, false, false, true, false⟩ false false
      ⟨true, true, true, true⟩).1,
   (C10_captcha_amended ⟨true, false, false, true, false⟩ false false
      ⟨true, true, true, true⟩).2.1 rfl rfl,
   (C10_captcha_amended ⟨true, false, false, true, false⟩ true false
      ⟨false, true, true, true⟩).2.2 rfl⟩

namespace MainPy

/- ===== Dropdown selector: main.py select_dropdown_option ===== -/

/-- The three text-matching strategies, in their declared order: exact
`@text`, substring `@text`, substring `@content-desc`. -/
inductive Strat where
  | exactText
  | subText
  | subDesc
  deriving DecidableEq

/-- The fixed strategy order of `selection_methods`. -/
def stratOrder : List Strat := [Strat.exactText, Strat.subText, Strat.subDesc]

/-- Backend behaviour during one `select_dropdown_option` call: whether
opening the dropdown raises, which strategies render an option on the
first pass and whether clicking that option succeeds, whether the scroll
swipe raises, and the same for the post-scroll pass. -/
structure DropEnv where
  openRaises : Bool
  f1e : Bool
  f1t : Bool
  f1d : Bool
  c1e : Bool
  c1t : Bool
  c1d : Bool
  swipeRaises : Bool
  f2e : Bool
  f2t : Bool
  f2d : Bool
  c2e : Bool
  c2t : Bool
  c2d : Bool

/-- The first matching pass (main.py lines 145-154): strategies are tried
in order inside per-strategy `try` blocks, so a found option whose click
raises falls through to the next strategy; the pass succeeds at the first
strategy whose option is found and clicked. Returns the strategies
attempted and whether the pass returned `True`. -/
def pass1Run (env : DropEnv) : List Strat × Bool :=
  if env.f1e && env.c1e then ([Strat.exactText], true)
  else if env.f1t && env.c1t then ([Strat.exactText, Strat.subText], true)
  else if env.f1d && env.c1d then (stratOrder, true)
  else (stratOrder, false)

/-- The post-scroll pass (main.py lines 162-167): the same three
strategies in the same order, but with no per-strategy `try`, so the first
found option is clicked and a raising click aborts the whole block
(caught by the enclosing `except: pass`, after which the function returns
`False`). -/
def pass2Run (env : DropEnv) : List Strat × Bool :=
  if env.f2e then ([Strat.exactText], env.c2e)
  else if env.f2t then ([Strat.exactText, Strat.subText], env.c2t)
  else if env.f2d then (stratOrder, env.c2d)
  else (stratOrder, false)

/-- Observable outcome of `select_dropdown_option`: the returned boolean,
how many scroll gestures were issued, and the (pass, strategy) pairs
attempted in order. -/
structure DropResult where
  success : Bool
  scrolls : Nat
  attempted : List (Nat × Strat)
  deriving DecidableEq

/-- main.py `select_dropdown_option` (lines 131-176): open the dropdown
(a raised open is caught by the outer handler, returning `False`), run the
first pass, and when it fails issue exactly one scroll swipe and run the
second pass; a still-unmatched call returns `False`; every exception is
caught, so the caller always receives a boolean. -/
def select_dropdown_option (env : DropEnv) : DropResult :=
  if env.openRaises then ⟨false, 0, []⟩
  else if (pass1Run env).2 then
    ⟨true, 0, (pass1Run env).1.map (fun s => (1, s))⟩
  else if env.swipeRaises then
    ⟨false, 1, (pass1Run env).1.map (fun s => (1, s))⟩
  else
    ⟨(pass2Run env).2, 1,
     (pass1Run env).1.map (fun s => (1, s))
       ++ (pass2Run env).1.map (fun s => (2, s))⟩

/-- All six (pass, strategy) pairs in canonical order. -/
def canonicalAttempts : List (Nat × Strat) :=
  stratOrder.map (fun s => (1, s)) ++ stratOrder.map (fun s => (2, s))

/-- The first pass attempts one of the three order-respecting prefixes. -/
theorem pass1Run_shape (env : DropEnv) :
    (pass1Run env).1 = [Strat.exactText] ∨
    (pass1Run env).1 = [Strat.exactText, Strat.subText] ∨
    (pass1Run env).1 = stratOrder := by
  simp only [pass1Run]
  split_ifs <;> simp

/-- The second pass attempts one of the three order-respecting prefixes. -/
theorem pass2Run_shape (env : DropEnv) :
    (pass2Run env).1 = [Strat.exactText] ∨
    (pass2Run env).1 = [Strat.exactText, Strat.subText] ∨
    (pass2Run env).1 = stratOrder := by
  simp only [pass2Run]
  split_ifs <;> simp

/-- A failed first pass attempted all three strategies. -/
theorem pass1Run_failed (env : DropEnv) (h : (pass1Run env).2 = false) :
    (pass1Run env).1 = stratOrder := by
  simp only [pass1Run] at h ⊢
  split_ifs at h ⊢
  all_goals simp_all

/-- When no strategy renders an option on the first pass, the pass fails
after attempting all three strategies. -/
theorem pass1Run_notFound (env : DropEnv) (he : env.f1e = false)
    (ht : env.f1t = false) (hd : env.f1d = false) :
    pass1Run env = (stratOrder, false) := by
  simp [pass1Run, he, ht, hd]

/-- When no strategy renders an option on the second pass, the pass fails
after attempting all three strategies. -/
theorem pass2Run_notFound (env : DropEnv) (he : env.f2e = false)
    (ht : env.f2t = false) (hd : env.f2d = false) :
    pass2Run env = (stratOrder, false) := by
  simp [pass2Run, he, ht, hd]

/-- Claim C7: the dropdown selector tries the three strategies in the
fixed order exact text, substring text, substring content-desc, then — on
a first pass with no rendered match — performs exactly one scroll gesture
and repeats the same three strategies once more, and when still unmatched
returns `False`.  The attempted (pass, strategy) pairs always follow the
canonical order, a successful first pass scrolls zero times, and the
embedding returns a boolean on every environment, raising nothing. -/
theorem C7_dropdown_strategy_order (env : DropEnv) :
    initSeg (select_dropdown_option env).attempted canonicalAttempts ∧
    ((pass1Run env).2 = true → (select_dropdown_option env).scrolls = 0) ∧
    (env.openRaises = false → env.f1e = false → env.f1t = false →
      env.f1d = false → (select_dropdown_option env).scrolls = 1) ∧
    (env.openRaises = false → env.f1e = false → env.f1t = false →
      env.f1d = false → env.swipeRaises = false → env.f2e = false →
      env.f2t = false → env.f2d = false →
      select_dropdown_option env = ⟨false, 1, canonicalAttempts⟩) := by
  refine ⟨?_, ?_, ?_, ?_⟩
  · simp only [select_dropdown_option]
    split_ifs with h1 h2 h3
    · exact ⟨canonicalAttempts, rfl⟩
    · rcases pass1Run_shape env with h | h | h <;> rw [h]
      · exact ⟨[(1, Strat.subText), (1, Strat.subDesc)]
          ++ stratOrder.map (fun s => (2, s)), by decide⟩
      · exact ⟨[(1, Strat.subDesc)] ++ stratOrder.map (fun s => (2, s)), by decide⟩
      · exact ⟨stratOrder.map (fun s => (2, s)), by decide⟩
    · rw [pass1Run_failed env (by simpa using h2)]
      exact ⟨stratOrder.map (fun s => (2, s)), by decide⟩
    · rw [pass1Run_failed env (by simpa using h2)]
      rcases pass2Run_shape env with h | h | h <;> rw [h]
      · exact ⟨[(2, Strat.subText), (2, Strat.subDesc)],
          by simp [canonicalAttempts, stratOrder]⟩
      · exact ⟨[(2, Strat.subDesc)], by simp [canonicalAttempts, stratOrder]⟩
      · exact ⟨[], by simp [canonicalAttempts, stratOrder]⟩
  · intro hp
    simp only [select_dropdown_option]
    split_ifs <;> simp_all
  · intro ho he ht hd
    have hp : pass1Run env = (stratOrder, false) := pass1Run_notFound env he ht hd
    simp only [select_dropdown_option, ho, hp]
    split_ifs <;> simp_all
  · intro ho he ht hd hs he2 ht2 hd2
    have hp : pass1Run env = (stratOrder, false) := pass1Run_notFound env he ht hd
    have hq : pass2Run env = (stratOrder, false) := pass2Run_notFound env he2 ht2 hd2
    simp [select_dropdown_option, ho, hp, hq, hs, canonicalAttempts]

/-- Witness for C7: with the dropdown opening, nothing rendering on either
pass and nothing raising, the call returns `False` after one scroll and
all six in-order strategy attempts. -/
theorem C7_dropdown_strategy_order_witness :
    select_dropdown_option
        ⟨false, false, false, false, false, false, false,
         false, false, false, false, false, false, false⟩
      = ⟨false, 1, canonicalAttempts⟩ :=
  (C7_dropdown_strategy_order
    ⟨false, false, false, false, false, false, false,
     false, false, false, false, false, false, false⟩).2.2.2
    rfl rfl rfl rfl rfl rfl rfl rfl

end MainPy
